import Mathlib

/-!
Verification of the Tsukurogami bridge (final revision, the file with
tag-based bot matching: `getBotsWhere`, `createBot`, `deleteBot`,
`integrateBot`, `handlePullRequestUpdated`, `handleIntegrationUpdated`,
`Configuration.MarshalJSON` / `UnmarshalJSON`).

The Go program is shallowly embedded:
 - JSON documents become the inductive `Json`; Go's `map[string]*json.RawMessage`
   and `map[string]interface\x7b\x7d` become association lists with unique keys
   (Go maps are unordered; entry order in the lists is irrelevant to every
   property proved here).
 - Go's `strings.ToLower` becomes `lowerStr` (character-wise lowering, which
   agrees with Go on the ASCII tag/status strings this program compares).
 - The remote Xcode registry becomes an explicit `Server` value; the HTTP
   calls the reconciler issues are collected in a `Call` trace.  The remote
   server is modelled as honouring every duplicate/delete/integration request
   (status 201/204/201): the claims under verification are about the client
   logic, and its failure paths that do not depend on remote status codes
   (missing parameters, empty registry, no matching bots) are all reachable
   in the model.
 - `http.ResponseWriter` becomes `RW`: Go writes an implicit 200 header on the
   first body write when no explicit `WriteHeader` has happened, and ignores
   any second `WriteHeader`.
 - A Go panic (nil-pointer dereference) during decoding is the distinguished
   outcome `GoResult.panic`.
-/

namespace Tsukurogami

/-- Go's `strings.ToLower`, restricted to the ASCII strings this program
lowercases (status tokens, repo/branch names, bot names). -/
def lowerStr (s : String) : String := ⟨s.data.map Char.toLower⟩

/-- JSON values.  Numbers are modelled as integers: every number this program
reads or writes (`scheduleType`, trigger phases/types, condition status) is a
small integer. -/
inductive Json where
  | null
  | bool (b : Bool)
  | int (n : Int)
  | str (s : String)
  | arr (xs : List Json)
  | obj (fields : List (String × Json))

/-- Lookup in a JSON object / Go map (association list, unique keys).
`none` is Go's missing-key result (a nil `*json.RawMessage`, a nil
`interface\x7b\x7d`). -/
def objGet (o : List (String × Json)) (k : String) : Option Json :=
  match o with
  | [] => none
  | (k', v) :: rest => if k' = k then some v else objGet rest k

/-- Go map assignment `m[k] = v`: replace the existing entry or add one. -/
def objSet (o : List (String × Json)) (k : String) (v : Json) : List (String × Json) :=
  match o with
  | [] => [(k, v)]
  | (k', v') :: rest => if k' = k then (k, v) :: rest else (k', v') :: objSet rest k v

/-- Go's `delete(m, k)`. -/
def objDelete (o : List (String × Json)) (k : String) : List (String × Json) :=
  match o with
  | [] => []
  | (k', v') :: rest => if k' = k then objDelete rest k else (k', v') :: objDelete rest k

/-- The `Conditions` struct nested in `Trigger` (five outcome flags plus a
status integer). -/
structure Conditions where
  onAnalyzerWarnings : Bool
  onBuildErrors : Bool
  onFailingTests : Bool
  onSuccess : Bool
  onWarnings : Bool
  status : Int
deriving Repr, DecidableEq

/-- The zero value of `Conditions` (what Go gives a freshly declared struct). -/
def Conditions.zero : Conditions := ⟨false, false, false, false, false, 0⟩

/-- The `Trigger` struct: phase, script body (`scriptBody,omitempty`), name,
type, optional raw email-configuration passthrough, conditions. -/
structure Trigger where
  phase : Int
  body : String
  name : String
  type : Int
  emailConfiguration : Option Json
  conditions : Conditions

/-- The zero value of `Trigger`. -/
def Trigger.zero : Trigger := ⟨0, "", "", 0, none, Conditions.zero⟩

/-- The `Configuration` struct: the open bag `m` of raw server-defined fields
plus the three explicitly managed fields (`triggers`,
`buildEnvironmentVariables`, `scheduleType`). -/
structure Configuration where
  m : List (String × Json)
  triggers : List Trigger
  envVars : List (String × Json)
  scheduleType : Int

/-- The `Bot` struct (`_id`, `name`, `configuration`). -/
structure Bot where
  id : String
  name : String
  config : Configuration

/-- Outcome of a Go computation that can return a value, return an `error`,
or panic (nil-pointer dereference). -/
inductive GoResult (α : Type) where
  | ok (a : α)
  | err (msg : String)
  | panic

/- ---------------- encoding (MarshalJSON) ---------------- -/

/-- `encoding/json` serialization of `Conditions` (struct fields in
declaration order; no omitempty on any of them). -/
def encodeConditions (c : Conditions) : Json :=
  .obj [("onAnalyzerWarnings", .bool c.onAnalyzerWarnings),
        ("onBuildErrors", .bool c.onBuildErrors),
        ("onFailingTests", .bool c.onFailingTests),
        ("onSuccess", .bool c.onSuccess),
        ("onWarnings", .bool c.onWarnings),
        ("status", .int c.status)]

/-- `encoding/json` serialization of `Trigger`: `scriptBody` is omitted when
empty, `emailConfiguration` when nil; `conditions` (a struct) is always
emitted. -/
def encodeTrigger (t : Trigger) : Json :=
  .obj ([("phase", .int t.phase)]
    ++ (if t.body = "" then [] else [("scriptBody", .str t.body)])
    ++ [("name", .str t.name), ("type", .int t.type)]
    ++ (match t.emailConfiguration with
        | none => []
        | some j => [("emailConfiguration", j)])
    ++ [("conditions", encodeTrigger.encCond t.conditions)])
where
  /-- alias so that the equation compiler keeps one equation -/
  encCond : Conditions → Json := encodeConditions

/-- `Configuration.MarshalJSON`: marshal the three managed fields, store them
into the bag under their keys (in source order), then serialize the bag. -/
def marshalConfiguration (c : Configuration) : Json :=
  .obj (objSet
          (objSet
            (objSet c.m "triggers" (.arr (c.triggers.map encodeTrigger)))
            "buildEnvironmentVariables" (.obj c.envVars))
          "scheduleType" (.int c.scheduleType))

/- ---------------- decoding (UnmarshalJSON) ---------------- -/

/-- Decoding a JSON value into a Go `int` field: missing key leaves the zero
value, a non-number is an `UnmarshalTypeError`. -/
def decodeIntField (j : Option Json) : Except String Int :=
  match j with
  | none => .ok 0
  | some (.int n) => .ok n
  | some _ => .error "json: cannot unmarshal value into field of type int"

/-- Decoding a JSON value into a Go `string` field. -/
def decodeStrField (j : Option Json) : Except String String :=
  match j with
  | none => .ok ""
  | some (.str s) => .ok s
  | some _ => .error "json: cannot unmarshal value into field of type string"

/-- Decoding a JSON value into a Go `bool` field. -/
def decodeBoolField (j : Option Json) : Except String Bool :=
  match j with
  | none => .ok false
  | some (.bool b) => .ok b
  | some _ => .error "json: cannot unmarshal value into field of type bool"

/-- Decoding into the nested `Conditions` struct: JSON null leaves the zero
value, anything but an object is a type error, unknown keys are ignored. -/
def decodeConditions (j : Json) : Except String Conditions :=
  match j with
  | .null => .ok Conditions.zero
  | .obj o => do
    let aw ← decodeBoolField (objGet o "onAnalyzerWarnings")
    let be ← decodeBoolField (objGet o "onBuildErrors")
    let ft ← decodeBoolField (objGet o "onFailingTests")
    let su ← decodeBoolField (objGet o "onSuccess")
    let wa ← decodeBoolField (objGet o "onWarnings")
    let st ← decodeIntField (objGet o "status")
    .ok ⟨aw, be, ft, su, wa, st⟩
  | _ => .error "json: cannot unmarshal value into Go value of type Conditions"

/-- Decoding into a `Trigger` struct.  `emailConfiguration` is a
`*json.RawMessage`: a present non-null value is captured verbatim, JSON null
sets the pointer to nil. -/
def decodeTrigger (j : Json) : Except String Trigger :=
  match j with
  | .null => .ok Trigger.zero
  | .obj o => do
    let ph ← decodeIntField (objGet o "phase")
    let bd ← decodeStrField (objGet o "scriptBody")
    let nm ← decodeStrField (objGet o "name")
    let ty ← decodeIntField (objGet o "type")
    let ec : Option Json :=
      match objGet o "emailConfiguration" with
      | none => none
      | some .null => none
      | some j' => some j'
    let cd ← match objGet o "conditions" with
      | none => .ok Conditions.zero
      | some cj => decodeConditions cj
    .ok ⟨ph, bd, nm, ty, ec, cd⟩
  | _ => .error "json: cannot unmarshal value into Go value of type Trigger"

/-- Element-wise decoding of a JSON array into `[]Trigger`; the first failing
element aborts with its error. -/
def decodeTriggerList : List Json → Except String (List Trigger)
  | [] => .ok []
  | j :: js =>
    match decodeTrigger j with
    | .error e => .error e
    | .ok t =>
      match decodeTriggerList js with
      | .error e => .error e
      | .ok ts => .ok (t :: ts)

/-- Decoding into `[]Trigger`: JSON null leaves the nil slice, an array
decodes element-wise, anything else is a type error. -/
def decodeTriggers (j : Json) : Except String (List Trigger) :=
  match j with
  | .null => .ok []
  | .arr xs => decodeTriggerList xs
  | _ => .error "json: cannot unmarshal value into Go value of type []Trigger"

/-- Decoding into `map[string]interface\x7b\x7d`: JSON null leaves the nil map, an
object becomes the map, anything else is a type error. -/
def decodeEnv (j : Json) : Except String (List (String × Json)) :=
  match j with
  | .null => .ok []
  | .obj o => .ok o
  | _ => .error "json: cannot unmarshal value into Go value of type map[string]interface"

/-- `Configuration.UnmarshalJSON`: decode the byte payload into the bag `m`,
then dereference `m["triggers"]`, `m["buildEnvironmentVariables"]` and
`m["scheduleType"]` in that order and decode each.  The dereference of a
missing key is a nil-pointer dereference: the Go code panics
(`GoResult.panic`).  A JSON null payload leaves `m` nil, so the first lookup
also panics. -/
def unmarshalConfiguration (j : Json) : GoResult Configuration :=
  match j with
  | .obj o =>
    match objGet o "triggers" with
    | none => .panic
    | some tj =>
      match decodeTriggers tj with
      | .error e => .err e
      | .ok ts =>
        match objGet o "buildEnvironmentVariables" with
        | none => .panic
        | some ej =>
          match decodeEnv ej with
          | .error e => .err e
          | .ok env =>
            match objGet o "scheduleType" with
            | none => .panic
            | some sj =>
              match decodeIntField (some sj) with
              | .error e => .err e
              | .ok st => .ok ⟨o, ts, env, st⟩
  | .null => .panic
  | _ => .err "json: cannot unmarshal value into Go value of type map[string]*json.RawMessage"

/- ---------------- script bodies and injected triggers ---------------- -/

/-- The `switchBranch` shell script with the branch substituted for `%s`
(`fmt.Sprintf(switchBranch, branch)`). -/
def switchBranchScript (branch : String) : String :=
  "\n#!/bin/sh\nset -x\ncd $\x7bXCS_PRIMARY_REPO_DIR\x7d\ngit fetch\ngit checkout \""
    ++ branch
    ++ "\"\ngit pull # for good measure\ngit merge --no-ff --no-commit master\n"

/-- The `pokeStatus` shell script with the reconciler's IP, port and status
token substituted (`fmt.Sprintf(pokeStatus, myIP, config.Port, status)`). -/
def pokeStatusScript (ip : String) (port : Int) (status : String) : String :=
  "\n#!/bin/sh\nset -x\ncd $\x7bXCS_PRIMARY_REPO_DIR\x7d\ncurl -g \""
    ++ ip ++ ":" ++ toString port
    ++ "/integrationUpdated?commit=$(git rev-parse HEAD | tr -d \\n)&bot=$\x7bXCS_BOT_NAME\x7d&integration=$\x7bXCS_INTEGRATION_NUMBER\x7d&status="
    ++ status ++ "\"\n"

/-- The pre-build status poke built in `createBot` (type 1, phase 1, zero-value
conditions). -/
def prePoke (ip : String) (port : Int) : Trigger :=
  ⟨1, pokeStatusScript ip port "inprogress", "Update Status", 1, none, Conditions.zero⟩

/-- The post-build status poke built in `createBot` (type 1, phase 2; the
source sets OnWarnings, OnSuccess, OnFailingTests, OnBuildErrors, OnWarnings
again, and OnAnalyzerWarnings — all five flags end up true). -/
def postPoke (ip : String) (port : Int) : Trigger :=
  ⟨2, pokeStatusScript ip port "$\x7bXCS_INTEGRATION_RESULT\x7d", "Update Status", 1, none,
    ⟨true, true, true, true, true, 0⟩⟩

/-- The branch-switch trigger built in `createBot` (type 1, phase 1). -/
def switchTrigger (branch : String) : Trigger :=
  ⟨1, switchBranchScript branch, "Switch Branch", 1, none, Conditions.zero⟩

/-- The per-template body of `createBot`'s loop: the Configuration submitted
to the duplicate endpoint.  Three triggers are prepended ahead of the
template's triggers; the repo/branch tags are set and the template marker
deleted; the bot is renamed to `\x7btemplate-name\x7d.\x7bbranch\x7d`; the identifier is
cleared; the schedule type is forced to 3. -/
def deriveBot (ip : String) (port : Int) (repo branch : String) (tmpl : Bot) : Bot :=
  ⟨"",
   tmpl.name ++ "." ++ branch,
   ⟨tmpl.config.m,
    switchTrigger branch :: prePoke ip port :: postPoke ip port :: tmpl.config.triggers,
    objDelete
      (objSet (objSet tmpl.config.envVars "TSUKUROGAMI_REPO" (.str repo))
        "TSUKUROGAMI_BRANCH" (.str branch))
      "TSUKUROGAMI_REPO_TEMPLATE",
    3⟩⟩

/- ---------------- the remote registry ---------------- -/

/-- One HTTP call issued to the Xcode registry: POST `\x7bid\x7d/duplicate` with a
submitted bot document, DELETE `\x7bid\x7d`, or POST `\x7bid\x7d/integrations`. -/
inductive Call where
  | duplicate (templateId : String) (submitted : Bot)
  | delete (id : String)
  | integrate (id : String)

/-- The registry state: the bot list the server would answer with, a counter
for server-assigned identifiers of duplicated bots, and the HTTP status codes
the server answers duplicate / delete / integration requests with (a healthy
server answers 201 / 204 / 201; other codes exercise the source's
"RPC failed" paths). -/
structure Server where
  bots : List Bot
  nextId : Nat
  dupCode : Nat
  delCode : Nat
  intCode : Nat

/-- `getBots`: list the registry.  The server reports `count` equal to the
number of results; `count == 0` makes the client fail with the zero-results
protocol error (the JSON decode error itself is never checked in the
source). -/
def getBots (srv : Server) : Except String (List Bot) :=
  if srv.bots.isEmpty then .error "getBot: no bots" else .ok srv.bots

/-- `getBotsWhere`: list then filter, wrapping any listing error. -/
def getBotsWhere (pred : Bot → Bool) (srv : Server) : Except String (List Bot) :=
  match getBots srv with
  | .error e => .error ("getBotsWhere: " ++ e)
  | .ok bs => .ok (bs.filter pred)

/-- The template predicate used by `createBot`: the
`TSUKUROGAMI_REPO_TEMPLATE` env var must hold a string equal to `repo`
case-insensitively (the Go type assertion `.(string)` fails on a missing key
or a non-string value). -/
def isTemplateFor (repo : String) (b : Bot) : Bool :=
  match objGet b.config.envVars "TSUKUROGAMI_REPO_TEMPLATE" with
  | some (.str r) => lowerStr r == lowerStr repo
  | _ => false

/-- The instance predicate used by `deleteBot`/`integrateBot`: both the
`TSUKUROGAMI_REPO` and `TSUKUROGAMI_BRANCH` env vars must hold strings equal
to `repo` and `branch` case-insensitively. -/
def isInstanceFor (repo branch : String) (b : Bot) : Bool :=
  (match objGet b.config.envVars "TSUKUROGAMI_REPO" with
   | some (.str r) => lowerStr r == lowerStr repo
   | _ => false)
  &&
  (match objGet b.config.envVars "TSUKUROGAMI_BRANCH" with
   | some (.str br) => lowerStr br == lowerStr branch
   | _ => false)

/-- `createBot`'s loop over the matched templates: each iteration submits the
derived bot to `POST \x7btemplate-id\x7d/duplicate`.  On 201 the server stores it
under a fresh identifier and the loop continues; any other code aborts the
loop with the source's "RPC failed" error. -/
def dupLoop (ip : String) (port : Int) (repo branch : String) :
    Server → List Bot → Server × List Call × Option String
  | srv, [] => (srv, [], none)
  | srv, t :: ts =>
    let d := deriveBot ip port repo branch t
    if srv.dupCode = 201 then
      let stored : Bot := ⟨"xcs-" ++ toString srv.nextId, d.name, d.config⟩
      let r := dupLoop ip port repo branch
        ⟨srv.bots ++ [stored], srv.nextId + 1, srv.dupCode, srv.delCode, srv.intCode⟩ ts
      (r.1, Call.duplicate t.id d :: r.2.1, r.2.2)
    else
      (srv, [Call.duplicate t.id d],
       some ("createBot " ++ repo ++ " " ++ branch ++ ": RPC failed (code: "
         ++ toString srv.dupCode ++ ")"))

/-- `createBot(repo, branch)`: resolve the templates for `repo`, fail when the
lookup fails or matches nothing, otherwise duplicate every match.  Returns
the new registry state, the issued calls, and the Go error (if any). -/
def createBot (srv : Server) (ip : String) (port : Int) (repo branch : String) :
    Server × List Call × Option String :=
  match getBotsWhere (isTemplateFor repo) srv with
  | .error e => (srv, [], some ("createBot " ++ repo ++ " " ++ branch ++ ": " ++ e))
  | .ok tbots =>
    if tbots.isEmpty then
      (srv, [], some ("createBot " ++ repo ++ " " ++ branch ++ ": no templates for repo"))
    else
      dupLoop ip port repo branch srv tbots

/-- `deleteBot`'s loop over the matched instances: each is DELETEd; 204
removes it and continues, any other code aborts with the source's
"RPC failed" error (no colon after "code" in this one, as in the source). -/
def delLoop (repo branch : String) : Server → List Bot → Server × List Call × Option String
  | srv, [] => (srv, [], none)
  | srv, b :: bs =>
    if srv.delCode = 204 then
      let r := delLoop repo branch
        ⟨srv.bots.filter (fun x => !(x.id == b.id)), srv.nextId,
         srv.dupCode, srv.delCode, srv.intCode⟩ bs
      (r.1, Call.delete b.id :: r.2.1, r.2.2)
    else
      (srv, [Call.delete b.id],
       some ("deleteBot " ++ repo ++ " " ++ branch ++ ": RPC failed (code "
         ++ toString srv.delCode ++ ")"))

/-- `deleteBot(repo, branch)`: resolve the instances, fail when the lookup
fails or matches nothing (note the source's no-match message interpolates
only `repo`), otherwise DELETE every match. -/
def deleteBot (srv : Server) (repo branch : String) :
    Server × List Call × Option String :=
  match getBotsWhere (isInstanceFor repo branch) srv with
  | .error e => (srv, [], some ("deleteBot " ++ repo ++ " " ++ branch ++ ": " ++ e))
  | .ok bs =>
    if bs.isEmpty then
      (srv, [], some ("deleteBot " ++ repo ++ ": no bots found"))
    else
      delLoop repo branch srv bs

/-- `integrateBot`'s loop: POST an integration per match; 201 continues,
anything else aborts with the "RPC failed" error. -/
def intLoop (repo branch : String) : Server → List Bot → Server × List Call × Option String
  | srv, [] => (srv, [], none)
  | srv, b :: bs =>
    if srv.intCode = 201 then
      let r := intLoop repo branch srv bs
      (r.1, Call.integrate b.id :: r.2.1, r.2.2)
    else
      (srv, [Call.integrate b.id],
       some ("integrateBot " ++ repo ++ " " ++ branch ++ ": RPC failed (code: "
         ++ toString srv.intCode ++ ")"))

/-- `integrateBot(repo, branch)`: resolve the instances, fail when the lookup
fails or matches nothing, otherwise POST an integration for every match. -/
def integrateBot (srv : Server) (repo branch : String) :
    Server × List Call × Option String :=
  match getBotsWhere (isInstanceFor repo branch) srv with
  | .error e => (srv, [], some ("integrateBot " ++ repo ++ " " ++ branch ++ ": " ++ e))
  | .ok bs =>
    if bs.isEmpty then
      (srv, [], some ("integrateBot " ++ repo ++ " " ++ branch ++ ": no bots found"))
    else
      intLoop repo branch srv bs

/- ---------------- HTTP response writer and errorHandler ---------------- -/

/-- `http.ResponseWriter` as observed by these handlers: the explicitly
written status header (if any) and the accumulated body. -/
structure RW where
  status : Option Nat
  body : String

/-- The writer at the start of a request. -/
def RW.empty : RW := ⟨none, ""⟩

/-- `w.WriteHeader(code)`: only the first call takes effect (net/http ignores
superfluous calls). -/
def writeHeader (w : RW) (code : Nat) : RW :=
  match w.status with
  | none => ⟨some code, w.body⟩
  | some _ => w

/-- `w.Write` / `fmt.Fprintf(w, ...)`: the first body write with no header
written yet makes net/http send an implicit 200. -/
def bodyWrite (w : RW) (s : String) : RW :=
  match w.status with
  | none => ⟨some 200, w.body ++ s⟩
  | some c => ⟨some c, w.body ++ s⟩

/-- The status code the client actually sees (200 when the handler wrote
neither header nor body). -/
def effectiveStatus (w : RW) : Nat := w.status.getD 200

/-- The `errorHandler` wrapper: a nil error leaves the writer alone, a
non-nil error is printed to the response body (and logged). -/
def errorHandler (w : RW) (e : Option String) : RW :=
  match e with
  | none => w
  | some msg => bodyWrite w msg

/-- "`s` mentions `sub`": `sub` occurs as a contiguous substring of `s`. -/
def mentions (s sub : String) : Prop := sub.data <:+: s.data

instance (s sub : String) : Decidable (mentions s sub) :=
  inferInstanceAs (Decidable (sub.data <:+: s.data))

theorem mentions_append_right (a b sub : String) (h : mentions b sub) :
    mentions (a ++ b) sub := by
  unfold mentions at h ⊢
  rw [String.data_append]
  exact h.trans (List.suffix_append a.data b.data).isInfix

/- ---------------- /pullRequestUpdated ---------------- -/

/-- Result of one `/pullRequestUpdated` request: final registry state, the
calls issued to it, the response writer, and the error the inner handler
returned to `errorHandler`. -/
structure PRResult where
  server : Server
  calls : List Call
  writer : RW
  goErr : Option String

/-- The inner `handlePullRequestUpdated`: parameter validation (in source
order repo, branch, status; a parameter is missing when its value list is
empty), then the status dispatch.  The default case returns an
"unknown status" error without writing any header; every other outcome
explicitly writes 400/500/201.  (The stray trailing quote in the
missing-branch message is in the source.) -/
def handlePullRequestUpdated (srv : Server) (ip : String) (port : Int) (u : String)
    (repo branch status : List String) (w : RW) : PRResult :=
  match repo with
  | [] => ⟨srv, [], writeHeader w 400, some (u ++ " missing \"repo\" parameter")⟩
  | r :: _ =>
    match branch with
    | [] => ⟨srv, [], writeHeader w 400, some (u ++ " missing \"branch\" parameter\"")⟩
    | b :: _ =>
      match status with
      | [] => ⟨srv, [], writeHeader w 400, some (u ++ " missing \"status\" parameter")⟩
      | s :: _ =>
        let sl := lowerStr s
        if sl = "opened" ∨ sl = "reopened" then
          let c := createBot srv ip port r b
          match c.2.2 with
          | some e => ⟨c.1, c.2.1, writeHeader w 500, some e⟩
          | none =>
            let i := integrateBot c.1 r b
            match i.2.2 with
            | some e => ⟨i.1, c.2.1 ++ i.2.1, writeHeader w 500, some e⟩
            | none => ⟨i.1, c.2.1 ++ i.2.1, writeHeader w 201, none⟩
        else if sl = "closed" ∨ sl = "declined" then
          let d := deleteBot srv r b
          match d.2.2 with
          | some e => ⟨d.1, d.2.1, writeHeader w 500, some e⟩
          | none => ⟨d.1, d.2.1, writeHeader w 201, none⟩
        else if sl = "rescoped_from" then
          let i := integrateBot srv r b
          match i.2.2 with
          | some e => ⟨i.1, i.2.1, writeHeader w 500, some e⟩
          | none => ⟨i.1, i.2.1, writeHeader w 201, none⟩
        else
          ⟨srv, [], w, some ("unknown status: " ++ s ++ "\n")⟩

/-- One full `/pullRequestUpdated` request: the inner handler wrapped by
`errorHandler` on a fresh writer. -/
def servePullRequestUpdated (srv : Server) (ip : String) (port : Int) (u : String)
    (repo branch status : List String) : PRResult :=
  let h := handlePullRequestUpdated srv ip port u repo branch status RW.empty
  ⟨h.server, h.calls, errorHandler h.writer h.goErr, h.goErr⟩

/- ---------------- /integrationUpdated ---------------- -/

/-- The commit-status payload struct (`state`, `key`, `name,omitempty`,
`url`, `description,omitempty`). -/
structure StatusPayload where
  state : String
  key : String
  name : String
  url : String
  desc : String
deriving Repr, DecidableEq

/-- The payload `handleIntegrationUpdated` builds from the `status`, `bot`
and `integration` parameters: the status switch (on the lowercased token)
sets `state` and, in the default case only, the free-text description; then
key, name and the placeholder url are filled in. -/
def mkStatusPayload (status bot integration : String) : StatusPayload :=
  let sl := lowerStr status
  let base : StatusPayload :=
    if sl = "inprogress" then ⟨"INPROGRESS", "", "", "", ""⟩
    else if sl = "succeeded" ∨ sl = "warnings" then ⟨"SUCCESSFUL", "", "", "", ""⟩
    else if sl = "trigger-error" ∨ sl = "internal-build-error" ∨ sl = "build-errors" then
      ⟨"FAILED", "", "", "", ""⟩
    else ⟨"FAILED", "", "", "", "xcode returned: " ++ status⟩
  ⟨base.state, bot, bot ++ ":" ++ integration, "http://example.com/", base.desc⟩

/-- Go's `path.Join` on the already-clean segments this program joins: drop
the left segment's trailing slashes and splice with a single slash (the full
`path.Clean` normalization never fires on these inputs). -/
def goPathJoin (a b : String) : String :=
  if a = "" then b
  else if b = "" then a
  else ⟨(a.data.reverse.dropWhile (fun c => c = '/')).reverse⟩ ++ "/" ++ b

/-- Outcome of the bitbucket client's POST as the Go code observes it: a
transport error, or an HTTP response carrying some status code. -/
inductive PostOutcome where
  | transportErr (msg : String)
  | resp (statusCode : Nat)

/-- Result of one `/integrationUpdated` request: the response writer and the
POST the relay attempted (target path and payload), if it got that far. -/
structure IUResult where
  writer : RW
  posted : Option (String × StatusPayload)

/-- One full `/integrationUpdated` request, wrapped by `errorHandler`.
`bitbucketPath` is the configured bitbucket URL's path; `post` is the
bitbucket client (target path and payload to outcome).  The deferred
`WriteHeader` fires first (200 if the success flag was reached, else 500),
then `errorHandler` prints any returned error.  The relay is judged only by
the transport error: any actual HTTP response sets the success flag, its
status code is never read.  (`json.Marshal` of the payload struct cannot
fail and is elided.) -/
def serveIntegrationUpdated (bitbucketPath : String)
    (post : String → StatusPayload → PostOutcome) (u : String)
    (commit status bot integration : List String) : IUResult :=
  let finish : Bool → Option String → Option (String × StatusPayload) → IUResult :=
    fun success e p =>
      ⟨errorHandler (writeHeader RW.empty (if success then 200 else 500)) e, p⟩
  match commit with
  | [] => finish false (some (u ++ " no \"commit\" parameter")) none
  | c :: _ =>
    match status with
    | [] => finish false (some (u ++ " no \"status\" parameter")) none
    | s :: _ =>
      match bot with
      | [] => finish false (some (u ++ " no \"bot\" parameter")) none
      | b :: _ =>
        match integration with
        | [] => finish false (some (u ++ " no \"integration\" parameter")) none
        | i :: _ =>
          let payload := mkStatusPayload s b i
          let target := goPathJoin (goPathJoin bitbucketPath "rest/build-status/1.0/commits/") c
          match post target payload with
          | .transportErr e =>
            finish false (some ("handleIntegrationUpdated: " ++ e)) (some (target, payload))
          | .resp _ => finish true none (some (target, payload))

/- ---------------- helper lemmas ---------------- -/

theorem objGet_objSet (o : List (String × Json)) (k k' : String) (v : Json) :
    objGet (objSet o k v) k' = if k' = k then some v else objGet o k' := by
  induction o with
  | nil =>
    simp only [objSet, objGet]
    by_cases h : k' = k
    · subst h; simp
    · simp [h, Ne.symm h]
  | cons p rest ih =>
    obtain ⟨a, b⟩ := p
    simp only [objSet]
    by_cases hak : a = k
    · subst hak
      simp only [if_pos rfl, objGet]
      by_cases h : k' = a
      · subst h; simp
      · simp [h, Ne.symm h]
    · simp only [if_neg hak, objGet]
      by_cases hak' : a = k'
      · subst hak'
        simp [hak, Ne.symm hak]
      · simp [hak', ih]

theorem objGet_objDelete (o : List (String × Json)) (k k' : String) :
    objGet (objDelete o k) k' = if k' = k then none else objGet o k' := by
  induction o with
  | nil =>
    simp only [objDelete, objGet]
    by_cases h : k' = k <;> simp [h]
  | cons p rest ih =>
    obtain ⟨a, b⟩ := p
    simp only [objDelete]
    by_cases hak : a = k
    · subst hak
      by_cases h : k' = a
      · subst h; simp [ih]
      · simp [objGet, ih, h, Ne.symm h]
    · simp only [if_neg hak, objGet]
      by_cases hak' : a = k'
      · subst hak'
        simp [hak, Ne.symm hak]
      · simp [hak', ih]

/- ---------------- shared concrete fixtures ---------------- -/

/-- A registry with no bots at all (the listing reports `count == 0`). -/
def emptyServer : Server := ⟨[], 0, 201, 204, 201⟩

/-- A build trigger a template bot already carries. -/
def inheritedTrigger : Trigger := ⟨0, "xcodebuild test", "Inherited Build", 1, none, Conditions.zero⟩

/-- A template bot for repo `widgets`: tagged via `TSUKUROGAMI_REPO_TEMPLATE`,
one inherited trigger, one server-defined extra configuration field, a
periodic schedule type. -/
def widgetsTemplate : Bot :=
  ⟨"tid1", "widgets-template",
   ⟨[("x-server-field", .str "keep")],
    [inheritedTrigger],
    [("TSUKUROGAMI_REPO_TEMPLATE", .str "widgets")],
    1⟩⟩

/-- A healthy registry holding exactly the `widgets` template bot. -/
def oneTemplateServer : Server := ⟨[widgetsTemplate], 0, 201, 204, 201⟩

/-- The same registry, but the server answers integration requests with 500
("RPC failed"). -/
def badIntegrationServer : Server := ⟨[widgetsTemplate], 0, 201, 204, 500⟩

/-- An instance bot tracking (widgets, feature-x), tagged through its
`TSUKUROGAMI_REPO` / `TSUKUROGAMI_BRANCH` env vars. -/
def featureInstance : Bot :=
  ⟨"iid1", "widgets-template.feature-x",
   ⟨[], [],
    [("TSUKUROGAMI_REPO", .str "widgets"), ("TSUKUROGAMI_BRANCH", .str "feature-x")],
    3⟩⟩

/-- A healthy registry holding exactly the (widgets, feature-x) instance. -/
def oneInstanceServer : Server := ⟨[featureInstance], 0, 201, 204, 201⟩

/- ---------------- the claims ---------------- -/

/-- C1: for every template bot matched for (repo, branch), `createBot`
derives the duplicated bot's Configuration as a new trigger sequence of
exactly the three prepended triggers — branch-switch script, pre-build
status poke, post-build status poke, in that order — followed by all of the
template's original triggers in their original order.  The template's stored
list is not mutated in place: the Go source builds the new slice by
appending the spread of the old one onto a fresh three-element literal, and
in this embedding the derived list is a fresh sequence of which the
template's list (still intact in `tmpl`) is the untouched suffix. -/
theorem c1_derived_trigger_sequence (ip : String) (port : Int)
    (repo branch : String) (tmpl : Bot) :
    (deriveBot ip port repo branch tmpl).config.triggers
        = [switchTrigger branch, prePoke ip port, postPoke ip port] ++ tmpl.config.triggers
      ∧ (deriveBot ip port repo branch tmpl).config.triggers.drop 3 = tmpl.config.triggers
      ∧ tmpl.config.triggers <:+ (deriveBot ip port repo branch tmpl).config.triggers := by
  exact ⟨rfl, rfl, ⟨[switchTrigger branch, prePoke ip port, postPoke ip port], rfl⟩⟩

/-- C8: in every bot configuration produced by `createBot`, the post-build
status poke (third prepended trigger, phase 2) has all five outcome flags
set, and the pre-build status poke (second prepended trigger, phase 1) has
none of them set. -/
theorem c8_poke_outcome_flags (ip : String) (port : Int)
    (repo branch : String) (tmpl : Bot) :
    (deriveBot ip port repo branch tmpl).config.triggers.get? 2 = some (postPoke ip port)
      ∧ (postPoke ip port).phase = 2
      ∧ (postPoke ip port).conditions
          = ⟨true, true, true, true, true, 0⟩
      ∧ (deriveBot ip port repo branch tmpl).config.triggers.get? 1 = some (prePoke ip port)
      ∧ (prePoke ip port).phase = 1
      ∧ (prePoke ip port).conditions
          = ⟨false, false, false, false, false, 0⟩ := by
  exact ⟨rfl, rfl, rfl, rfl, rfl, rfl⟩

theorem dupLoop_calls (ip : String) (port : Int) (repo branch : String) :
    ∀ (ts : List Bot) (srv : Server), srv.dupCode = 201 →
      (dupLoop ip port repo branch srv ts).2.1
        = ts.map (fun t => Call.duplicate t.id (deriveBot ip port repo branch t)) := by
  intro ts
  induction ts with
  | nil => intro srv _; rfl
  | cons t rest ih =>
    intro srv h
    simp [dupLoop, h]
    exact ih _ rfl

theorem createBot_calls (srv : Server) (ip : String) (port : Int)
    (repo branch : String) (h : srv.dupCode = 201) :
    (createBot srv ip port repo branch).2.1
      = (srv.bots.filter (isTemplateFor repo)).map
          (fun t => Call.duplicate t.id (deriveBot ip port repo branch t)) := by
  unfold createBot getBotsWhere getBots
  by_cases he : srv.bots.isEmpty
  · simp [he, List.isEmpty_iff.mp he]
  · simp only [he, if_neg, Bool.false_eq_true, not_false_eq_true, if_false]
    by_cases hf : (srv.bots.filter (isTemplateFor repo)).isEmpty
    · simp [hf, List.isEmpty_iff.mp hf]
    · simp [hf, dupLoop_calls ip port repo branch _ _ h]

/-- C2: for every matched template, the Configuration that `createBot`
submits via the duplicate call sets `TSUKUROGAMI_REPO` to repo and
`TSUKUROGAMI_BRANCH` to branch, removes the `TSUKUROGAMI_REPO_TEMPLATE`
marker, renames the bot to `\x7btemplate-name\x7d.\x7bbranch\x7d`, clears the identifier,
and forces schedule type 3 (first conjunct: the derived submission; second
conjunct: `createBot` submits exactly one such duplicate per matched
template).  Third conjunct: the concrete opened event `repo=widgets,
branch=feature-x` against a registry with exactly one matching template
yields exactly one duplicate call followed by one trigger-integration call,
and the handler answers HTTP 201. -/
theorem c2_duplicate_submission :
    (∀ (ip : String) (port : Int) (repo branch : String) (tmpl : Bot),
      objGet (deriveBot ip port repo branch tmpl).config.envVars "TSUKUROGAMI_REPO"
          = some (.str repo)
        ∧ objGet (deriveBot ip port repo branch tmpl).config.envVars "TSUKUROGAMI_BRANCH"
            = some (.str branch)
        ∧ objGet (deriveBot ip port repo branch tmpl).config.envVars "TSUKUROGAMI_REPO_TEMPLATE"
            = none
        ∧ (deriveBot ip port repo branch tmpl).name = tmpl.name ++ "." ++ branch
        ∧ (deriveBot ip port repo branch tmpl).id = ""
        ∧ (deriveBot ip port repo branch tmpl).config.scheduleType = 3)
    ∧ (∀ (srv : Server) (ip : String) (port : Int) (repo branch : String),
        srv.dupCode = 201 →
          (createBot srv ip port repo branch).2.1
            = (srv.bots.filter (isTemplateFor repo)).map
                (fun t => Call.duplicate t.id (deriveBot ip port repo branch t)))
    ∧ (servePullRequestUpdated oneTemplateServer "10.0.0.1" 4444 "/pullRequestUpdated"
          ["widgets"] ["feature-x"] ["opened"]).calls
        = [Call.duplicate "tid1" (deriveBot "10.0.0.1" 4444 "widgets" "feature-x" widgetsTemplate),
           Call.integrate "xcs-0"]
    ∧ effectiveStatus (servePullRequestUpdated oneTemplateServer "10.0.0.1" 4444
          "/pullRequestUpdated" ["widgets"] ["feature-x"] ["opened"]).writer = 201 := by
  refine ⟨?_, fun srv ip port repo branch h => createBot_calls srv ip port repo branch h, ?_, ?_⟩
  · intro ip port repo branch tmpl
    refine ⟨?_, ?_, ?_, rfl, rfl, rfl⟩ <;>
      simp [deriveBot, objGet_objDelete, objGet_objSet]
  · rfl
  · rfl

/-- Witness for C2's hypothesis-bearing conjunct: at the concrete
one-template registry (whose duplicate responses are 201) the submitted
duplicates are exactly one per matched template. -/
theorem c2_duplicate_submission_witness :
    (createBot oneTemplateServer "10.0.0.1" 4444 "widgets" "feature-x").2.1
      = (oneTemplateServer.bots.filter (isTemplateFor "widgets")).map
          (fun t => Call.duplicate t.id (deriveBot "10.0.0.1" 4444 "widgets" "feature-x" t)) :=
  c2_duplicate_submission.2.1 oneTemplateServer "10.0.0.1" 4444 "widgets" "feature-x" rfl

theorem effectiveStatus_wrap (c : Nat) (e : Option String) :
    effectiveStatus (errorHandler (writeHeader RW.empty c) e) = c := by
  cases e <;> rfl

/-- C3 (amended): the router returns HTTP 400 when a required parameter is
missing (checked in order repo, branch, status), HTTP 500 when a handled
action fails — create, integrate-after-create, delete, or integrate — and
HTTP 201 on success of any recognized status; but for an unrecognized status
value the source returns an "unknown status" error without ever reaching the
`WriteHeader(201)` line, so the response goes out with net/http's implicit
200 and the error text, not with 201. -/
theorem c3_router_status_codes :
    (∀ (srv : Server) (ip : String) (port : Int) (u : String) (branch status : List String),
      effectiveStatus (servePullRequestUpdated srv ip port u [] branch status).writer = 400)
    ∧ (∀ (srv : Server) (ip : String) (port : Int) (u : String) (r : String)
        (rs status : List String),
      effectiveStatus (servePullRequestUpdated srv ip port u (r :: rs) [] status).writer = 400)
    ∧ (∀ (srv : Server) (ip : String) (port : Int) (u : String) (r b : String)
        (rs bs : List String),
      effectiveStatus (servePullRequestUpdated srv ip port u (r :: rs) (b :: bs) []).writer = 400)
    ∧ (∀ (srv : Server) (ip : String) (port : Int) (u r b s : String)
        (rs bs ss : List String) (e : String),
      (lowerStr s = "opened" ∨ lowerStr s = "reopened") →
      (createBot srv ip port r b).2.2 = some e →
      effectiveStatus (servePullRequestUpdated srv ip port u
          (r :: rs) (b :: bs) (s :: ss)).writer = 500)
    ∧ (∀ (srv : Server) (ip : String) (port : Int) (u r b s : String)
        (rs bs ss : List String) (e : String),
      (lowerStr s = "opened" ∨ lowerStr s = "reopened") →
      (createBot srv ip port r b).2.2 = none →
      (integrateBot (createBot srv ip port r b).1 r b).2.2 = some e →
      effectiveStatus (servePullRequestUpdated srv ip port u
          (r :: rs) (b :: bs) (s :: ss)).writer = 500)
    ∧ (∀ (srv : Server) (ip : String) (port : Int) (u r b s : String)
        (rs bs ss : List String) (e : String),
      (lowerStr s = "closed" ∨ lowerStr s = "declined") →
      (deleteBot srv r b).2.2 = some e →
      effectiveStatus (servePullRequestUpdated srv ip port u
          (r :: rs) (b :: bs) (s :: ss)).writer = 500)
    ∧ (∀ (srv : Server) (ip : String) (port : Int) (u r b s : String)
        (rs bs ss : List String) (e : String),
      lowerStr s = "rescoped_from" →
      (integrateBot srv r b).2.2 = some e →
      effectiveStatus (servePullRequestUpdated srv ip port u
          (r :: rs) (b :: bs) (s :: ss)).writer = 500)
    ∧ (∀ (srv : Server) (ip : String) (port : Int) (u r b s : String)
        (rs bs ss : List String),
      (lowerStr s = "opened" ∨ lowerStr s = "reopened") →
      (createBot srv ip port r b).2.2 = none →
      (integrateBot (createBot srv ip port r b).1 r b).2.2 = none →
      effectiveStatus (servePullRequestUpdated srv ip port u
          (r :: rs) (b :: bs) (s :: ss)).writer = 201)
    ∧ (∀ (srv : Server) (ip : String) (port : Int) (u r b s : String)
        (rs bs ss : List String),
      (lowerStr s = "closed" ∨ lowerStr s = "declined") →
      (deleteBot srv r b).2.2 = none →
      effectiveStatus (servePullRequestUpdated srv ip port u
          (r :: rs) (b :: bs) (s :: ss)).writer = 201)
    ∧ (∀ (srv : Server) (ip : String) (port : Int) (u r b s : String)
        (rs bs ss : List String),
      lowerStr s = "rescoped_from" →
      (integrateBot srv r b).2.2 = none →
      effectiveStatus (servePullRequestUpdated srv ip port u
          (r :: rs) (b :: bs) (s :: ss)).writer = 201)
    ∧ (∀ (srv : Server) (ip : String) (port : Int) (u r b s : String)
        (rs bs ss : List String),
      lowerStr s ≠ "opened" → lowerStr s ≠ "reopened" →
      lowerStr s ≠ "closed" → lowerStr s ≠ "declined" →
      lowerStr s ≠ "rescoped_from" →
      effectiveStatus (servePullRequestUpdated srv ip port u
            (r :: rs) (b :: bs) (s :: ss)).writer = 200
        ∧ (servePullRequestUpdated srv ip port u
            (r :: rs) (b :: bs) (s :: ss)).goErr
            = some ("unknown status: " ++ s ++ "\n")) := by
  refine ⟨fun _ _ _ _ _ _ => rfl, fun _ _ _ _ _ _ _ => rfl, fun _ _ _ _ _ _ _ _ => rfl,
    ?_, ?_, ?_, ?_, ?_, ?_, ?_, ?_⟩
  · intro srv ip port u r b s rs bs ss e h hc
    rcases h with h | h <;>
      simp [servePullRequestUpdated, handlePullRequestUpdated, h, hc, effectiveStatus_wrap]
  · intro srv ip port u r b s rs bs ss e h hc hi
    rcases h with h | h <;>
      simp [servePullRequestUpdated, handlePullRequestUpdated, h, hc, hi, effectiveStatus_wrap]
  · intro srv ip port u r b s rs bs ss e h hd
    rcases h with h | h <;>
      simp [servePullRequestUpdated, handlePullRequestUpdated, h, hd, effectiveStatus_wrap]
  · intro srv ip port u r b s rs bs ss e h hi
    simp [servePullRequestUpdated, handlePullRequestUpdated, h, hi, effectiveStatus_wrap]
  · intro srv ip port u r b s rs bs ss h hc hi
    rcases h with h | h <;>
      simp [servePullRequestUpdated, handlePullRequestUpdated, h, hc, hi, effectiveStatus_wrap]
  · intro srv ip port u r b s rs bs ss h hd
    rcases h with h | h <;>
      simp [servePullRequestUpdated, handlePullRequestUpdated, h, hd, effectiveStatus_wrap]
  · intro srv ip port u r b s rs bs ss h hi
    simp [servePullRequestUpdated, handlePullRequestUpdated, h, hi, effectiveStatus_wrap]
  · intro srv ip port u r b s rs bs ss h1 h2 h3 h4 h5
    simp [servePullRequestUpdated, handlePullRequestUpdated, h1, h2, h3, h4, h5,
      errorHandler, bodyWrite, RW.empty, effectiveStatus]

/-- Counterexample to C3 as stated: a request whose status value `bogus` is
unrecognized hits the dispatch table's default case, and the handler does
not answer 201 — it returns the "unknown status" error and the response goes
out with the implicit 200. -/
theorem c3_router_counterexample :
    effectiveStatus (servePullRequestUpdated emptyServer "10.0.0.1" 4444 "/u"
        ["widgets"] ["feature-x"] ["bogus"]).writer = 200
    ∧ effectiveStatus (servePullRequestUpdated emptyServer "10.0.0.1" 4444 "/u"
        ["widgets"] ["feature-x"] ["bogus"]).writer ≠ 201
    ∧ (servePullRequestUpdated emptyServer "10.0.0.1" 4444 "/u"
        ["widgets"] ["feature-x"] ["bogus"]).goErr = some "unknown status: bogus\n" := by
  refine ⟨rfl, ?_, rfl⟩
  intro h
  rw [show effectiveStatus (servePullRequestUpdated emptyServer "10.0.0.1" 4444 "/u"
    ["widgets"] ["feature-x"] ["bogus"]).writer = 200 from rfl] at h
  exact absurd h (by omega)

/-- Witness for C3: each hypothesis-bearing conjunct discharged at a concrete
registry — failing create / integrate / delete paths answer 500, succeeding
recognized paths answer 201, and an unrecognized status answers 200 with the
error text. -/
theorem c3_router_status_codes_witness :
    effectiveStatus (servePullRequestUpdated emptyServer "10.0.0.1" 4444 "/u"
        ["widgets"] ["feature-x"] ["opened"]).writer = 500
    ∧ effectiveStatus (servePullRequestUpdated badIntegrationServer "10.0.0.1" 4444 "/u"
        ["widgets"] ["feature-x"] ["Opened"]).writer = 500
    ∧ effectiveStatus (servePullRequestUpdated emptyServer "10.0.0.1" 4444 "/u"
        ["widgets"] ["feature-x"] ["closed"]).writer = 500
    ∧ effectiveStatus (servePullRequestUpdated emptyServer "10.0.0.1" 4444 "/u"
        ["widgets"] ["feature-x"] ["rescoped_from"]).writer = 500
    ∧ effectiveStatus (servePullRequestUpdated oneTemplateServer "10.0.0.1" 4444 "/u"
        ["widgets"] ["feature-x"] ["opened"]).writer = 201
    ∧ effectiveStatus (servePullRequestUpdated oneInstanceServer "10.0.0.1" 4444 "/u"
        ["widgets"] ["feature-x"] ["Declined"]).writer = 201
    ∧ effectiveStatus (servePullRequestUpdated oneInstanceServer "10.0.0.1" 4444 "/u"
        ["widgets"] ["feature-x"] ["rescoped_from"]).writer = 201
    ∧ effectiveStatus (servePullRequestUpdated emptyServer "10.0.0.1" 4444 "/u"
        ["widgets"] ["feature-x"] ["merged"]).writer = 200 :=
  ⟨c3_router_status_codes.2.2.2.1 emptyServer "10.0.0.1" 4444 "/u" "widgets" "feature-x"
      "opened" [] [] [] _ (Or.inl rfl) rfl,
   c3_router_status_codes.2.2.2.2.1 badIntegrationServer "10.0.0.1" 4444 "/u" "widgets"
      "feature-x" "Opened" [] [] [] _ (Or.inl rfl) rfl rfl,
   c3_router_status_codes.2.2.2.2.2.1 emptyServer "10.0.0.1" 4444 "/u" "widgets" "feature-x"
      "closed" [] [] [] _ (Or.inl rfl) rfl,
   c3_router_status_codes.2.2.2.2.2.2.1 emptyServer "10.0.0.1" 4444 "/u" "widgets" "feature-x"
      "rescoped_from" [] [] [] _ rfl rfl,
   c3_router_status_codes.2.2.2.2.2.2.2.1 oneTemplateServer "10.0.0.1" 4444 "/u" "widgets"
      "feature-x" "opened" [] [] [] (Or.inl rfl) rfl rfl,
   c3_router_status_codes.2.2.2.2.2.2.2.2.1 oneInstanceServer "10.0.0.1" 4444 "/u" "widgets"
      "feature-x" "Declined" [] [] [] (Or.inr rfl) rfl,
   c3_router_status_codes.2.2.2.2.2.2.2.2.2.1 oneInstanceServer "10.0.0.1" 4444 "/u" "widgets"
      "feature-x" "rescoped_from" [] [] [] rfl rfl,
   (c3_router_status_codes.2.2.2.2.2.2.2.2.2.2 emptyServer "10.0.0.1" 4444 "/u" "widgets"
      "feature-x" "merged" [] [] [] (by decide) (by decide) (by decide) (by decide) (by decide)).1⟩

theorem deleteBot_no_match (srv : Server) (repo branch : String)
    (hne : srv.bots ≠ []) (hf : srv.bots.filter (isInstanceFor repo branch) = []) :
    deleteBot srv repo branch = (srv, [], some ("deleteBot " ++ repo ++ ": no bots found")) := by
  unfold deleteBot getBotsWhere getBots
  simp [hne, hf]

theorem integrateBot_no_match (srv : Server) (repo branch : String)
    (hne : srv.bots ≠ []) (hf : srv.bots.filter (isInstanceFor repo branch) = []) :
    integrateBot srv repo branch
      = (srv, [], some ("integrateBot " ++ repo ++ " " ++ branch ++ ": no bots found")) := by
  unfold integrateBot getBotsWhere getBots
  simp [hne, hf]

/-- C4 (amended): when the registry lists at least one bot but zero bots
carry both the `TSUKUROGAMI_REPO = repo` and `TSUKUROGAMI_BRANCH = branch`
tags (case-insensitively), `deleteBot` and `integrateBot` fail with the
no-instance errors, whose messages mention "no bots found"; a closed event
in that state makes the handler answer HTTP 500 with that error.  When the
registry reports zero bots overall, both operations still fail, but with the
wrapped zero-results protocol error "no bots" instead (see the
counterexample). -/
theorem c4_no_instance_errors :
    (∀ (srv : Server) (repo branch : String),
      srv.bots ≠ [] →
      srv.bots.filter (isInstanceFor repo branch) = [] →
      (deleteBot srv repo branch).2.2 = some ("deleteBot " ++ repo ++ ": no bots found")
        ∧ (integrateBot srv repo branch).2.2
            = some ("integrateBot " ++ repo ++ " " ++ branch ++ ": no bots found")
        ∧ mentions ("deleteBot " ++ repo ++ ": no bots found") "no bots found"
        ∧ mentions ("integrateBot " ++ repo ++ " " ++ branch ++ ": no bots found")
            "no bots found")
    ∧ (∀ (srv : Server) (ip : String) (port : Int) (u repo branch : String),
      srv.bots ≠ [] →
      srv.bots.filter (isInstanceFor repo branch) = [] →
      effectiveStatus (servePullRequestUpdated srv ip port u
          [repo] [branch] ["closed"]).writer = 500
        ∧ (servePullRequestUpdated srv ip port u [repo] [branch] ["closed"]).goErr
            = some ("deleteBot " ++ repo ++ ": no bots found")) := by
  constructor
  · intro srv repo branch hne hf
    refine ⟨?_, ?_, ?_, ?_⟩
    · rw [deleteBot_no_match srv repo branch hne hf]
    · rw [integrateBot_no_match srv repo branch hne hf]
    · exact mentions_append_right ("deleteBot " ++ repo) ": no bots found" _ (by decide)
    · exact mentions_append_right ("integrateBot " ++ repo ++ " " ++ branch)
        ": no bots found" _ (by decide)
  · intro srv ip port u repo branch hne hf
    have hd : (deleteBot srv repo branch).2.2
        = some ("deleteBot " ++ repo ++ ": no bots found") := by
      rw [deleteBot_no_match srv repo branch hne hf]
    constructor
    · simp [servePullRequestUpdated, handlePullRequestUpdated, hd, effectiveStatus_wrap,
        show lowerStr "closed" = "closed" from rfl]
    · simp [servePullRequestUpdated, handlePullRequestUpdated, hd,
        show lowerStr "closed" = "closed" from rfl]

/-- Counterexample to C4 as stated: the empty registry is a state in which
zero bots carry the (repo, branch) tags, yet `deleteBot` and `integrateBot`
fail with the wrapped listing error "getBot: no bots" — not the no-instance
error — and the closed event's 500 response does not mention
"no bots found". -/
theorem c4_no_instance_counterexample :
    emptyServer.bots.filter (isInstanceFor "widgets" "feature-x") = []
    ∧ (deleteBot emptyServer "widgets" "feature-x").2.2
        = some "deleteBot widgets feature-x: getBotsWhere: getBot: no bots"
    ∧ (integrateBot emptyServer "widgets" "feature-x").2.2
        = some "integrateBot widgets feature-x: getBotsWhere: getBot: no bots"
    ∧ ¬ mentions "deleteBot widgets feature-x: getBotsWhere: getBot: no bots" "no bots found"
    ∧ effectiveStatus (servePullRequestUpdated emptyServer "10.0.0.1" 4444 "/u"
        ["widgets"] ["feature-x"] ["closed"]).writer = 500
    ∧ (servePullRequestUpdated emptyServer "10.0.0.1" 4444 "/u"
        ["widgets"] ["feature-x"] ["closed"]).goErr
        = some "deleteBot widgets feature-x: getBotsWhere: getBot: no bots" :=
  ⟨rfl, rfl, rfl, by decide, rfl, rfl⟩

/-- Witness for C4: a registry holding only the template bot (so no instance
for (widgets, feature-x)) makes both operations fail with "no bots found"
and the closed event answer 500. -/
theorem c4_no_instance_errors_witness :
    ((deleteBot oneTemplateServer "widgets" "feature-x").2.2
        = some ("deleteBot " ++ "widgets" ++ ": no bots found")
      ∧ (integrateBot oneTemplateServer "widgets" "feature-x").2.2
          = some ("integrateBot " ++ "widgets" ++ " " ++ "feature-x" ++ ": no bots found")
      ∧ mentions ("deleteBot " ++ "widgets" ++ ": no bots found") "no bots found"
      ∧ mentions ("integrateBot " ++ "widgets" ++ " " ++ "feature-x" ++ ": no bots found")
          "no bots found")
    ∧ effectiveStatus (servePullRequestUpdated oneTemplateServer "10.0.0.1" 4444 "/u"
        ["widgets"] ["feature-x"] ["closed"]).writer = 500 :=
  ⟨c4_no_instance_errors.1 oneTemplateServer "widgets" "feature-x"
      (List.cons_ne_nil _ _) rfl,
   (c4_no_instance_errors.2 oneTemplateServer "10.0.0.1" 4444 "/u" "widgets" "feature-x"
      (List.cons_ne_nil _ _) rfl).1⟩

/-- C5 (amended): when the registry lists at least one bot but zero bots are
tagged (via `TSUKUROGAMI_REPO_TEMPLATE`, case-insensitively) as templates
for `repo`, `createBot` fails with the no-template error.  When the registry
list call reports zero bots overall, it instead fails with the wrapped
zero-results protocol error "no bots" (see the counterexample). -/
theorem c5_no_template_error (srv : Server) (ip : String) (port : Int)
    (repo branch : String) (hne : srv.bots ≠ [])
    (hf : srv.bots.filter (isTemplateFor repo) = []) :
    createBot srv ip port repo branch
      = (srv, [], some ("createBot " ++ repo ++ " " ++ branch ++ ": no templates for repo")) := by
  unfold createBot getBotsWhere getBots
  simp [hne, hf]

/-- Counterexample to C5 as stated: with zero bots overall (also a state with
zero template-tagged bots) `createBot` fails with the wrapped listing error
"getBot: no bots", which is not the no-template error. -/
theorem c5_no_template_counterexample :
    emptyServer.bots.filter (isTemplateFor "widgets") = []
    ∧ (createBot emptyServer "10.0.0.1" 4444 "widgets" "feature-x").2.2
        = some "createBot widgets feature-x: getBotsWhere: getBot: no bots"
    ∧ ¬ mentions "createBot widgets feature-x: getBotsWhere: getBot: no bots"
        "no templates" :=
  ⟨rfl, rfl, by decide⟩

/-- Witness for C5: a non-empty registry holding only an instance bot has no
template for widgets, and `createBot` fails with the no-template error. -/
theorem c5_no_template_error_witness :
    createBot oneInstanceServer "10.0.0.1" 4444 "widgets" "feature-x"
      = (oneInstanceServer, [],
         some ("createBot " ++ "widgets" ++ " " ++ "feature-x" ++ ": no templates for repo")) :=
  c5_no_template_error oneInstanceServer "10.0.0.1" 4444 "widgets" "feature-x"
    (List.cons_ne_nil _ _) rfl

/-- C6: the relay maps the CI vocabulary case-insensitively — `inprogress` to
INPROGRESS, `succeeded`/`warnings` to SUCCESSFUL, everything else to FAILED,
with unrecognized tokens (anything outside the six recognized ones)
preserved verbatim in the description field; the payload's key is the bot
name and its name is `\x7bbot\x7d:\x7bintegration\x7d`.  The concrete scenario
`commit=abc123&status=succeeded&bot=widgets.feature-x&integration=7` posts
the SUCCESSFUL payload to the commit-status endpoint for `abc123` and the
handler answers 200. -/
theorem c6_relay_mapping :
    (∀ (status bot integration : String),
      (lowerStr status = "inprogress" →
        (mkStatusPayload status bot integration).state = "INPROGRESS")
      ∧ (lowerStr status = "succeeded" ∨ lowerStr status = "warnings" →
        (mkStatusPayload status bot integration).state = "SUCCESSFUL")
      ∧ (lowerStr status ≠ "inprogress" → lowerStr status ≠ "succeeded" →
         lowerStr status ≠ "warnings" →
        (mkStatusPayload status bot integration).state = "FAILED")
      ∧ (lowerStr status ≠ "inprogress" → lowerStr status ≠ "succeeded" →
         lowerStr status ≠ "warnings" → lowerStr status ≠ "trigger-error" →
         lowerStr status ≠ "internal-build-error" → lowerStr status ≠ "build-errors" →
        (mkStatusPayload status bot integration).desc = "xcode returned: " ++ status)
      ∧ (mkStatusPayload status bot integration).key = bot
      ∧ (mkStatusPayload status bot integration).name = bot ++ ":" ++ integration)
    ∧ (serveIntegrationUpdated "/bitbucket" (fun _ _ => PostOutcome.resp 200) "/u"
          ["abc123"] ["succeeded"] ["widgets.feature-x"] ["7"]).posted
        = some ("/bitbucket/rest/build-status/1.0/commits/abc123",
               ⟨"SUCCESSFUL", "widgets.feature-x", "widgets.feature-x:7",
                "http://example.com/", ""⟩)
    ∧ effectiveStatus (serveIntegrationUpdated "/bitbucket" (fun _ _ => PostOutcome.resp 200)
          "/u" ["abc123"] ["succeeded"] ["widgets.feature-x"] ["7"]).writer = 200 := by
  refine ⟨?_, rfl, rfl⟩
  intro status bot integration
  refine ⟨?_, ?_, ?_, ?_, rfl, rfl⟩
  · intro h
    simp [mkStatusPayload, h]
  · intro h
    rcases h with h | h <;> simp [mkStatusPayload, h]
  · intro h1 h2 h3
    by_cases hc : lowerStr status = "trigger-error" ∨ lowerStr status = "internal-build-error"
        ∨ lowerStr status = "build-errors"
    · rcases hc with h | h | h <;> simp [mkStatusPayload, h1, h2, h3, h]
    · push_neg at hc
      simp [mkStatusPayload, h1, h2, h3, hc.1, hc.2.1, hc.2.2]
  · intro h1 h2 h3 h4 h5 h6
    simp [mkStatusPayload, h1, h2, h3, h4, h5, h6]

/-- Witness for C6: the mapping conjuncts at concrete status tokens —
`InProgress` is case-insensitively in progress, `SUCCEEDED` succeeds,
`somethingNew` fails with the token preserved in the description. -/
theorem c6_relay_mapping_witness :
    (mkStatusPayload "InProgress" "widgets.feature-x" "7").state = "INPROGRESS"
    ∧ (mkStatusPayload "SUCCEEDED" "widgets.feature-x" "7").state = "SUCCESSFUL"
    ∧ (mkStatusPayload "build-errors" "widgets.feature-x" "7").state = "FAILED"
    ∧ (mkStatusPayload "somethingNew" "widgets.feature-x" "7").state = "FAILED"
    ∧ (mkStatusPayload "somethingNew" "widgets.feature-x" "7").desc
        = "xcode returned: " ++ "somethingNew" :=
  ⟨(c6_relay_mapping.1 "InProgress" "widgets.feature-x" "7").1 rfl,
   (c6_relay_mapping.1 "SUCCEEDED" "widgets.feature-x" "7").2.1 (Or.inl rfl),
   (c6_relay_mapping.1 "build-errors" "widgets.feature-x" "7").2.2.1
     (by decide) (by decide) (by decide),
   (c6_relay_mapping.1 "somethingNew" "widgets.feature-x" "7").2.2.1
     (by decide) (by decide) (by decide),
   (c6_relay_mapping.1 "somethingNew" "widgets.feature-x" "7").2.2.2.1
     (by decide) (by decide) (by decide) (by decide) (by decide) (by decide)⟩

/-- C10: the relay POST is judged only by the transport error — for every
HTTP response the source-control server actually returns, whatever its
status code, the handler reaches the success flag and answers 200 with an
empty body; the relay response's status code is never inspected. -/
theorem c10_relay_ignores_response_code (bitbucketPath u : String) (code : Nat)
    (c s b i : String) (cs ss bs js : List String) :
    effectiveStatus (serveIntegrationUpdated bitbucketPath (fun _ _ => PostOutcome.resp code)
        u (c :: cs) (s :: ss) (b :: bs) (i :: js)).writer = 200
    ∧ (serveIntegrationUpdated bitbucketPath (fun _ _ => PostOutcome.resp code)
        u (c :: cs) (s :: ss) (b :: bs) (i :: js)).writer.body = ""
    ∧ (serveIntegrationUpdated bitbucketPath (fun _ _ => PostOutcome.resp code)
        u (c :: cs) (s :: ss) (b :: bs) (i :: js)).posted
        = some (goPathJoin (goPathJoin bitbucketPath "rest/build-status/1.0/commits/") c,
               mkStatusPayload s b i) :=
  ⟨rfl, rfl, rfl⟩

theorem decodeConditions_encodeConditions (c : Conditions) :
    decodeConditions (encodeConditions c) = .ok c := rfl

theorem decodeTrigger_encodeTrigger (t : Trigger) (h : t.emailConfiguration ≠ some Json.null) :
    decodeTrigger (encodeTrigger t) = .ok t := by
  obtain ⟨ph, bd, nm, ty, ec, cd⟩ := t
  by_cases hb : bd = ""
  · subst hb
    cases ec with
    | none => rfl
    | some j =>
      cases j with
      | null => exact absurd rfl h
      | bool b => rfl
      | int n => rfl
      | str s => rfl
      | arr xs => rfl
      | obj o => rfl
  · cases ec with
    | none =>
      simp only [encodeTrigger, if_neg hb]
      rfl
    | some j =>
      cases j with
      | null => exact absurd rfl h
      | bool b => simp only [encodeTrigger, if_neg hb]; rfl
      | int n => simp only [encodeTrigger, if_neg hb]; rfl
      | str s => simp only [encodeTrigger, if_neg hb]; rfl
      | arr xs => simp only [encodeTrigger, if_neg hb]; rfl
      | obj o => simp only [encodeTrigger, if_neg hb]; rfl

theorem decodeTriggerList_encode (ts : List Trigger)
    (h : ∀ t ∈ ts, t.emailConfiguration ≠ some Json.null) :
    decodeTriggerList (ts.map encodeTrigger) = .ok ts := by
  induction ts with
  | nil => rfl
  | cons t rest ih =>
    simp only [List.map_cons, decodeTriggerList,
      decodeTrigger_encodeTrigger t (h t (List.mem_cons_self t rest)),
      ih (fun x hx => h x (List.mem_cons_of_mem t hx))]

/-- C7: marshaling then unmarshaling a Configuration succeeds and preserves
every server-defined field not explicitly managed — any key other than
`triggers`, `buildEnvironmentVariables` and `scheduleType` comes back with
its value unchanged (value-for-value in this embedding of the raw bytes),
so no unknown configuration key is dropped on re-serialization.  The
managed fields themselves also round-trip.  The hypothesis excludes the one
degenerate encoding Go cannot round-trip either (a trigger whose raw
email-configuration passthrough is JSON null: re-decoding nils the
pointer). -/
theorem c7_roundtrip_preserves_unknown_keys (c : Configuration)
    (h : ∀ t ∈ c.triggers, t.emailConfiguration ≠ some Json.null) :
    ∃ c' : Configuration,
      unmarshalConfiguration (marshalConfiguration c) = .ok c'
      ∧ c'.triggers = c.triggers
      ∧ c'.envVars = c.envVars
      ∧ c'.scheduleType = c.scheduleType
      ∧ ∀ k : String, k ≠ "triggers" → k ≠ "buildEnvironmentVariables" →
          k ≠ "scheduleType" → objGet c'.m k = objGet c.m k := by
  refine ⟨⟨objSet (objSet (objSet c.m "triggers" (.arr (c.triggers.map encodeTrigger)))
      "buildEnvironmentVariables" (.obj c.envVars)) "scheduleType" (.int c.scheduleType),
      c.triggers, c.envVars, c.scheduleType⟩, ?_, rfl, rfl, rfl, ?_⟩
  · unfold marshalConfiguration unmarshalConfiguration
    simp [objGet_objSet, decodeTriggers, decodeTriggerList_encode c.triggers h,
      decodeEnv, decodeIntField]
  · intro k h1 h2 h3
    simp [objGet_objSet, h1, h2, h3]

/-- Witness for C7: the template bot's configuration (one trigger, one extra
server-defined key `x-server-field`) round-trips with the extra key
preserved. -/
theorem c7_roundtrip_witness :
    ∃ c' : Configuration,
      unmarshalConfiguration (marshalConfiguration widgetsTemplate.config) = .ok c'
      ∧ c'.triggers = widgetsTemplate.config.triggers
      ∧ c'.envVars = widgetsTemplate.config.envVars
      ∧ c'.scheduleType = widgetsTemplate.config.scheduleType
      ∧ ∀ k : String, k ≠ "triggers" → k ≠ "buildEnvironmentVariables" →
          k ≠ "scheduleType" → objGet c'.m k = objGet widgetsTemplate.config.m k :=
  c7_roundtrip_preserves_unknown_keys widgetsTemplate.config
    (by
      intro t ht
      rw [show widgetsTemplate.config.triggers = [inheritedTrigger] from rfl,
        List.mem_singleton] at ht
      subst ht
      exact fun hh => Option.noConfusion hh)

/-- C9 (amended): `Configuration.UnmarshalJSON` dereferences the bag entries
for `triggers`, `buildEnvironmentVariables` and `scheduleType` without
checking they exist, so decoding an object missing one of them panics with a
nil-pointer dereference instead of returning an error — provided the managed
keys checked before the missing one (in that order) are present with values
that decode; any object lacking `triggers` panics unconditionally.  When an
earlier managed key's value fails to decode, that error is returned before
the missing key is reached (see the counterexample). -/
theorem c9_unmarshal_missing_keys_panic :
    (∀ o : List (String × Json), objGet o "triggers" = none →
      unmarshalConfiguration (.obj o) = .panic)
    ∧ (∀ (o : List (String × Json)) (tj : Json) (ts : List Trigger),
      objGet o "triggers" = some tj → decodeTriggers tj = .ok ts →
      objGet o "buildEnvironmentVariables" = none →
      unmarshalConfiguration (.obj o) = .panic)
    ∧ (∀ (o : List (String × Json)) (tj ej : Json) (ts : List Trigger)
        (env : List (String × Json)),
      objGet o "triggers" = some tj → decodeTriggers tj = .ok ts →
      objGet o "buildEnvironmentVariables" = some ej → decodeEnv ej = .ok env →
      objGet o "scheduleType" = none →
      unmarshalConfiguration (.obj o) = .panic) := by
  refine ⟨?_, ?_, ?_⟩
  · intro o h1
    simp [unmarshalConfiguration, h1]
  · intro o tj ts h1 h2 h3
    simp [unmarshalConfiguration, h1, h2, h3]
  · intro o tj ej ts env h1 h2 h3 h4 h5
    simp [unmarshalConfiguration, h1, h2, h3, h4, h5]

/-- Counterexample to C9 as stated: this object lacks one of the three
managed keys (`buildEnvironmentVariables`), yet decoding does not panic — the
malformed `triggers` value is decoded first and its type error is returned. -/
theorem c9_unmarshal_counterexample :
    objGet [("triggers", Json.bool true)] "buildEnvironmentVariables" = none
    ∧ unmarshalConfiguration (Json.obj [("triggers", Json.bool true)])
        = .err "json: cannot unmarshal value into Go value of type []Trigger"
    ∧ unmarshalConfiguration (Json.obj [("triggers", Json.bool true)]) ≠ .panic := by
  refine ⟨rfl, rfl, ?_⟩
  intro hh
  rw [show unmarshalConfiguration (Json.obj [("triggers", Json.bool true)])
      = GoResult.err "json: cannot unmarshal value into Go value of type []Trigger"
    from rfl] at hh
  exact GoResult.noConfusion hh

/-- Witness for C9: concrete registry documents missing `triggers`,
missing `buildEnvironmentVariables` (triggers well-formed), and missing
`scheduleType` (both earlier keys well-formed) all panic. -/
theorem c9_unmarshal_missing_keys_panic_witness :
    unmarshalConfiguration
        (.obj [("buildEnvironmentVariables", .obj []), ("scheduleType", .int 3)]) = .panic
    ∧ unmarshalConfiguration
        (.obj [("triggers", .arr []), ("scheduleType", .int 3)]) = .panic
    ∧ unmarshalConfiguration
        (.obj [("triggers", .arr []), ("buildEnvironmentVariables", .obj [])]) = .panic :=
  ⟨c9_unmarshal_missing_keys_panic.1 _ rfl,
   c9_unmarshal_missing_keys_panic.2.1 _ (.arr []) [] rfl rfl rfl,
   c9_unmarshal_missing_keys_panic.2.2 _ (.arr []) (.obj []) [] [] rfl rfl rfl rfl rfl⟩

end Tsukurogami
